import Mathlib

/-!
Verification of the Job Store layer of the Distributed-Job-Queue-System
repository, embedded shallowly from `src/api/controllers/jobController.js`.

The controller file defines four database operations against a PostgreSQL
`jobs` table:

* `createJobsTable` — `CREATE TABLE IF NOT EXISTS jobs (id SERIAL PRIMARY KEY,
  type VARCHAR(50) NOT NULL, payload JSONB NOT NULL, status VARCHAR(20) NOT
  NULL DEFAULT 'pending', created_at TIMESTAMP DEFAULT CURRENT_TIMESTAMP,
  updated_at TIMESTAMP DEFAULT CURRENT_TIMESTAMP)`;
* `createJobInDB(type, payload)` — `INSERT INTO jobs (type, payload, status)
  VALUES ($1, $2, 'pending') RETURNING *`, returning `result.rows[0]`;
* `getJobById(id)` — `SELECT * FROM jobs WHERE id = $1`, returning
  `result.rows[0]` (`undefined` when no row matches);
* `updateJobStatus(id, status)` — `UPDATE jobs SET status = $1,
  updated_at = CURRENT_TIMESTAMP WHERE id = $2 RETURNING *`, returning
  `result.rows[0]` (`undefined` when no row matches).

Embedding conventions:

* A row of the `jobs` table is a `Job` structure whose fields are exactly the
  columns of the DDL.  The DDL has no `retries` column; the column list is
  recorded separately in `jobsTableColumns` so that statements about which
  fields a stored record has can be made.
* `SERIAL` id assignment is modelled by a `nextId` counter in the store state;
  `CURRENT_TIMESTAMP` is modelled by an explicit `now : Nat` argument.
* JSONB payloads are opaque and modelled as strings stored verbatim.
* The spec's abstract status names map onto the code's stored strings:
  QUEUED = "pending" (the DDL default and the value inserted by
  `createJobInDB`), PROCESSING = "processing", COMPLETED = "completed",
  FAILED = "failed" (the values listed in the controller's comments).
* `undefined` results (`result.rows[0]` with no rows) are `Option.none`.
-/

/-- A row of the `jobs` table, with one field per column of the DDL in
`createJobsTable`.  There is no `retries` column in the DDL, hence no such
field here. -/
structure Job where
  id : Nat
  type : String
  payload : String
  status : String
  created_at : Nat
  updated_at : Nat
deriving Repr, DecidableEq

/-- The column list of the `jobs` table exactly as the
`CREATE TABLE IF NOT EXISTS jobs (...)` statement declares it. -/
def jobsTableColumns : List String :=
  ["id", "type", "payload", "status", "created_at", "updated_at"]

/-- The state of the relational store: the rows of the `jobs` table in
insertion order, together with the next value of the `SERIAL` id sequence. -/
structure JobStore where
  jobs : List Job
  nextId : Nat
deriving Repr, DecidableEq

/-- Schema-level state of the database: `none` when the `jobs` table does not
exist, `some cols` when it exists with column list `cols`. -/
def SchemaState := Option (List String)

/-- `createJobsTable`: `CREATE TABLE IF NOT EXISTS jobs (...)`.  When the
table is absent it is created with the DDL's columns; when a `jobs` table
already exists the statement does nothing. -/
def createJobsTable (db : Option (List String)) : Option (List String) :=
  match db with
  | none => some jobsTableColumns
  | some cols => some cols

/-- `createJobInDB(type, payload)`: `INSERT INTO jobs (type, payload, status)
VALUES ($1, $2, 'pending') RETURNING *`.  The new row takes the next serial
id, the literal status `'pending'`, and `CURRENT_TIMESTAMP` (modelled by
`now`) for both timestamp columns; `result.rows[0]` is the inserted row. -/
def createJobInDB (st : JobStore) (now : Nat) (type payload : String) :
    JobStore × Job :=
  let j : Job :=
    { id := st.nextId, type := type, payload := payload,
      status := "pending", created_at := now, updated_at := now }
  ({ jobs := st.jobs ++ [j], nextId := st.nextId + 1 }, j)

/-- `getJobById(id)`: `SELECT * FROM jobs WHERE id = $1`; `result.rows[0]` is
the first matching row, `undefined` (here `none`) when no row matches. -/
def getJobById (st : JobStore) (id : Nat) : Option Job :=
  st.jobs.find? (fun j => j.id == id)

/-- The per-row effect of `UPDATE jobs SET status = $1, updated_at =
CURRENT_TIMESTAMP WHERE id = $2`: a row whose `id` matches gets the new
status and a refreshed `updated_at`; any other row is untouched. -/
def updateRow (now id : Nat) (status : String) (j : Job) : Job :=
  if j.id == id then { j with status := status, updated_at := now } else j

/-- `updateJobStatus(id, status)`: `UPDATE jobs SET status = $1, updated_at =
CURRENT_TIMESTAMP WHERE id = $2 RETURNING *`.  Every row of the table passes
through the `WHERE` filter; `result.rows[0]` is the first updated row,
`undefined` (here `none`) when no row has the given id. -/
def updateJobStatus (st : JobStore) (now : Nat) (id : Nat) (status : String) :
    JobStore × Option Job :=
  let jobs := st.jobs.map (updateRow now id status)
  ({ st with jobs := jobs }, jobs.find? (fun j => j.id == id))

/-- The job types with a registered handler, as listed in the repository's
README (`sendEmail`, `resizeImage`, `generateReport`, `sendNotification`,
`scrapeWebsite`). -/
def knownHandlerTypes : List String :=
  ["sendEmail", "resizeImage", "generateReport", "sendNotification",
   "scrapeWebsite"]

/-- Modelled from the spec: the Producer's `submit` operation (spec §4.4) is
not under `src/` (only the store helper `createJobInDB` it calls is present).
Per the spec, `submit(type, payload)` "validates `type` is a known handler"
and a validation error is "rejected synchronously by Producer, never enters
the pipeline"; only a valid submission reaches the Job Store insert. -/
def producerSubmit (st : JobStore) (now : Nat) (type payload : String) :
    JobStore × Option Job :=
  if type ∈ knownHandlerTypes then
    let r := createJobInDB st now type payload
    (r.1, some r.2)
  else
    (st, none)

/-- Ids already allocated by the `SERIAL` sequence are below the next value;
this holds of every store reachable from an empty table by the operations
above. -/
def idsBounded (st : JobStore) : Prop :=
  ∀ j ∈ st.jobs, j.id < st.nextId

/-- Primary-key uniqueness of `id`: distinct rows have distinct ids. -/
def uniqueIds (st : JobStore) : Prop :=
  st.jobs.Pairwise (fun a b => a.id ≠ b.id)

instance (st : JobStore) : Decidable (idsBounded st) := by
  unfold idsBounded; infer_instance

instance (st : JobStore) : Decidable (uniqueIds st) := by
  unfold uniqueIds
  exact List.instDecidablePairwise st.jobs

/-! ## Helper lemmas about the row traversal underlying the SQL operations -/

/-- `updateRow` never changes the `id` column. -/
theorem updateRow_id (now id : Nat) (s : String) (j : Job) :
    (updateRow now id s j).id = j.id := by
  unfold updateRow
  by_cases h : j.id == id <;> simp [h]

/-- Selecting by id after the `UPDATE` traversal finds exactly the image of
the row it would have found before: the `WHERE` filter keys on the unchanged
`id` column. -/
theorem find?_map_updateRow (l : List Job) (now id : Nat) (s : String) :
    (l.map (updateRow now id s)).find? (fun j => j.id == id) =
      (l.find? (fun j => j.id == id)).map (updateRow now id s) := by
  induction l with
  | nil => rfl
  | cons a t ih =>
      by_cases h : a.id == id
      · simp [List.find?, updateRow_id, h]
      · simp [List.find?, updateRow_id, h, ih]

/-- When no row has the given id, the `UPDATE` traversal is the identity on
the table. -/
theorem map_updateRow_of_absent (l : List Job) (now id : Nat) (s : String)
    (h : ∀ j ∈ l, (j.id == id) = false) :
    l.map (updateRow now id s) = l := by
  induction l with
  | nil => rfl
  | cons a t ih =>
      have ha := h a (List.mem_cons_self a t)
      have ht : ∀ j ∈ t, (j.id == id) = false := fun j hj => h j (List.mem_cons_of_mem a hj)
      simp [updateRow, ha, ih ht]

/-- A found row satisfies the filter and lies in the table. -/
theorem find?_some_mem {l : List Job} {p : Job → Bool} {j : Job}
    (h : l.find? p = some j) : j ∈ l ∧ p j = true :=
  ⟨List.mem_of_find?_eq_some h, List.find?_some h⟩

/-- A row found by the id filter has the searched id. -/
theorem find?_id_eq {l : List Job} {id : Nat} {j : Job}
    (h : l.find? (fun x => x.id == id) = some j) : j.id = id := by
  have := List.find?_some h
  exact beq_iff_eq.mp this

/-- Under primary-key uniqueness, the id filter finds any member row that
carries the searched id. -/
theorem find?_of_mem_unique (l : List Job) (id : Nat)
    (hu : l.Pairwise (fun a b => a.id ≠ b.id)) (j : Job)
    (hm : j ∈ l) (hid : j.id = id) :
    l.find? (fun x => x.id == id) = some j := by
  induction l with
  | nil => cases hm
  | cons a t ih =>
      rcases List.pairwise_cons.mp hu with ⟨hat, ht⟩
      rcases List.mem_cons.mp hm with rfl | hmt
      · simp [List.find?, hid]
      · have hne : a.id ≠ id := fun h => (hat j hmt) (h.trans hid.symm)
        have hb : (a.id == id) = false := by
          simp [hne]
        simp [List.find?, hb]
        exact ih ht hmt

/-- Scanning past rows on which the filter is false, a search over an
appended table is a search over the appended suffix. -/
theorem find?_append_of_none (l₁ l₂ : List Job) (p : Job → Bool)
    (h : ∀ x ∈ l₁, p x = false) :
    (l₁ ++ l₂).find? p = l₂.find? p := by
  induction l₁ with
  | nil => rfl
  | cons a t ih =>
      have ha := h a (List.mem_cons_self a t)
      have ht : ∀ x ∈ t, p x = false := fun x hx => h x (List.mem_cons_of_mem a hx)
      simp [List.find?, ha, ih ht]

/-! ## C6 and C7: the store's read and update contracts -/

/-- C6: for every id that exists in the store, `updateJobStatus` sets that
job's status to the given value and refreshes its `updated_at` timestamp
(to `CURRENT_TIMESTAMP`, modelled by `now`), returning the updated row both
as its result and on a subsequent read of the store; for an id with no
stored job it returns not-found (`undefined`, here `none`) and leaves the
store unchanged. -/
theorem updateJobStatus_contract (st : JobStore) (now id : Nat) (s : String) :
    (∀ j, getJobById st id = some j →
        (updateJobStatus st now id s).2 =
          some { j with status := s, updated_at := now }) ∧
    (getJobById st id = none →
        (updateJobStatus st now id s).2 = none ∧
        (updateJobStatus st now id s).1 = st) ∧
    getJobById (updateJobStatus st now id s).1 id = (updateJobStatus st now id s).2 := by
  have hsnd : (updateJobStatus st now id s).2 =
      (st.jobs.find? (fun j => j.id == id)).map (updateRow now id s) := by
    show (st.jobs.map (updateRow now id s)).find? (fun j => j.id == id) = _
    exact find?_map_updateRow st.jobs now id s
  refine ⟨?_, ?_, rfl⟩
  · intro j hj
    have hj' : st.jobs.find? (fun x => x.id == id) = some j := hj
    have hb : (j.id == id) = true := by
      have h2 := List.find?_some hj'
      exact h2
    rw [hsnd]
    show (st.jobs.find? (fun x => x.id == id)).map (updateRow now id s) = _
    rw [hj']
    simp [updateRow, hb]
  · intro hnone
    have hn : st.jobs.find? (fun j => j.id == id) = none := hnone
    have habs : ∀ j ∈ st.jobs, (j.id == id) = false := by
      intro j hj
      have := List.find?_eq_none.mp hn j hj
      simpa using this
    constructor
    · rw [hsnd, hn]; rfl
    · show ({ st with jobs := st.jobs.map (updateRow now id s) } : JobStore) = st
      rw [map_updateRow_of_absent st.jobs now id s habs]

/-- Witness for C6 at a concrete store: updating job 1 from its queued state
to "processing" at time 5 returns the row with the new status and the
refreshed timestamp. -/
theorem updateJobStatus_contract_witness :
    (updateJobStatus ⟨[⟨1, "sendEmail", "p1", "pending", 0, 0⟩], 2⟩ 5 1 "processing").2 =
      some ⟨1, "sendEmail", "p1", "processing", 0, 5⟩ :=
  (updateJobStatus_contract ⟨[⟨1, "sendEmail", "p1", "pending", 0, 0⟩], 2⟩ 5 1 "processing").1
    ⟨1, "sendEmail", "p1", "pending", 0, 0⟩ (by decide)

/-- C7: under primary-key uniqueness of `id`, `getJobById` returns the stored
row exactly when a job with that id exists, and not-found (`undefined`, here
`none`) exactly when none does. -/
theorem getJobById_contract (st : JobStore) (id : Nat) (hu : uniqueIds st) :
    (∀ j, getJobById st id = some j → j ∈ st.jobs ∧ j.id = id) ∧
    (getJobById st id = none ↔ ∀ j ∈ st.jobs, j.id ≠ id) ∧
    (∀ j ∈ st.jobs, j.id = id → getJobById st id = some j) := by
  refine ⟨?_, ?_, ?_⟩
  · intro j hj
    exact ⟨List.mem_of_find?_eq_some hj, find?_id_eq hj⟩
  · constructor
    · intro hn j hj
      have := List.find?_eq_none.mp hn j hj
      simpa using this
    · intro h
      apply List.find?_eq_none.mpr
      intro j hj
      simpa using h j hj
  · intro j hj hid
    exact find?_of_mem_unique st.jobs id hu j hj hid

/-- Witness for C7 at a concrete store: the present id 1 is found with its
stored row, and the absent id 9 reports not-found. -/
theorem getJobById_contract_witness :
    uniqueIds ⟨[⟨1, "sendEmail", "p1", "pending", 0, 0⟩], 2⟩ ∧
    getJobById ⟨[⟨1, "sendEmail", "p1", "pending", 0, 0⟩], 2⟩ 1 =
      some ⟨1, "sendEmail", "p1", "pending", 0, 0⟩ ∧
    getJobById ⟨[⟨1, "sendEmail", "p1", "pending", 0, 0⟩], 2⟩ 9 = none :=
  ⟨by decide,
   (getJobById_contract ⟨[⟨1, "sendEmail", "p1", "pending", 0, 0⟩], 2⟩ 1 (by decide)).2.2
     ⟨1, "sendEmail", "p1", "pending", 0, 0⟩ (by decide) rfl,
   ((getJobById_contract ⟨[⟨1, "sendEmail", "p1", "pending", 0, 0⟩], 2⟩ 9 (by decide)).2.1).mpr
     (by decide)⟩

/-! ## C1: the claimed compare-and-swap on status does not exist -/

/-- C1 counterexample: job 1 is stored with status "completed" (not the
queued state "pending"), yet `updateJobStatus` to "processing" is not a
no-op — it rewrites the stored row and reports the transition as having
succeeded, contradicting the claim that a job whose current status is not
QUEUED is left unchanged. -/
theorem updateJobStatus_no_cas_counterexample :
    ((updateJobStatus ⟨[⟨1, "sendEmail", "p1", "completed", 0, 0⟩], 2⟩ 5 1 "processing").1 ≠
        ⟨[⟨1, "sendEmail", "p1", "completed", 0, 0⟩], 2⟩) ∧
    (updateJobStatus ⟨[⟨1, "sendEmail", "p1", "completed", 0, 0⟩], 2⟩ 5 1 "processing").2 =
      some ⟨1, "sendEmail", "p1", "processing", 0, 5⟩ := by
  decide

/-- C1 (amended): `updateJobStatus` is unconditional.  Whatever the current
stored status of the addressed job — queued or not — the update overwrites
it with the requested value and returns the rewritten row; there is no
compare-and-swap on `status`, so the operation cannot make one of two
claimants lose. -/
theorem updateJobStatus_unconditional (st : JobStore) (now id : Nat) (s : String) :
    (updateJobStatus st now id s).2 =
      (getJobById st id).map (fun j => { j with status := s, updated_at := now }) := by
  have hsnd : (updateJobStatus st now id s).2 =
      (st.jobs.find? (fun j => j.id == id)).map (updateRow now id s) := by
    show (st.jobs.map (updateRow now id s)).find? (fun j => j.id == id) = _
    exact find?_map_updateRow st.jobs now id s
  rw [hsnd]
  show (st.jobs.find? (fun x => x.id == id)).map (updateRow now id s) = _
  cases hf : st.jobs.find? (fun x => x.id == id) with
  | none => simp [getJobById, hf]
  | some j =>
      have hb : (j.id == id) = true := by
        have h2 := List.find?_some hf
        exact h2
      show some (updateRow now id s j) = _
      simp [getJobById, hf, updateRow, hb]

/-! ## C3: COMPLETED is not terminal in the store -/

/-- C3 counterexample: job 1 is stored with status "completed", and the
subsequent Job Store operation `updateJobStatus 1 "failed"` changes its
stored status to "failed" — a COMPLETED job's status does change again. -/
theorem completed_overwritten_counterexample :
    getJobById ⟨[⟨1, "sendEmail", "p1", "completed", 0, 0⟩], 2⟩ 1 =
      some ⟨1, "sendEmail", "p1", "completed", 0, 0⟩ ∧
    getJobById
        (updateJobStatus ⟨[⟨1, "sendEmail", "p1", "completed", 0, 0⟩], 2⟩ 7 1 "failed").1 1 =
      some ⟨1, "sendEmail", "p1", "failed", 0, 7⟩ := by
  decide

/-- C3 (amended): the Job Store does not enforce terminality of COMPLETED.
For any stored job whose status is "completed", `updateJobStatus` with a new
status rewrites the stored row to carry that status (keeping the job's type
and payload), so COMPLETED persists only as long as no further
`updateJobStatus` call addresses the job. -/
theorem completed_not_terminal (st : JobStore) (now id : Nat) (s : String)
    (j : Job) (hj : getJobById st id = some j) (_hc : j.status = "completed") :
    getJobById (updateJobStatus st now id s).1 id =
      some { j with status := s, updated_at := now } := by
  have hj' : st.jobs.find? (fun x => x.id == id) = some j := hj
  have hb : (j.id == id) = true := by
    have h2 := List.find?_some hj'
    exact h2
  show (st.jobs.map (updateRow now id s)).find? (fun x => x.id == id) = _
  rw [find?_map_updateRow, hj']
  simp [updateRow, hb]

/-- Witness for the amended C3 at a concrete store: the completed job 1 is
rewritten to the queued state "pending" at time 9. -/
theorem completed_not_terminal_witness :
    getJobById (updateJobStatus ⟨[⟨1, "sendEmail", "p1", "completed", 0, 0⟩], 2⟩ 9 1 "pending").1 1 =
      some ⟨1, "sendEmail", "p1", "pending", 0, 9⟩ :=
  completed_not_terminal ⟨[⟨1, "sendEmail", "p1", "completed", 0, 0⟩], 2⟩ 9 1 "pending"
    ⟨1, "sendEmail", "p1", "completed", 0, 0⟩ (by decide) rfl

/-! ## C2 and C4: the inserted record and the missing retries column -/

/-- C2 counterexample: the record created by `createJobInDB` on a fresh store
carries the queued status "pending", but the `jobs` schema that shapes its
row has no "retries" column at all, so the created job has no retries field
that could equal 0. -/
theorem insert_no_retries_counterexample :
    ((createJobInDB ⟨[], 1⟩ 0 "sendEmail" "p1").2).status = "pending" ∧
      "retries" ∉ jobsTableColumns := by
  decide

/-- C2 (amended): for every type and payload, `createJobInDB` creates and
returns a job whose status is "pending" — the code's spelling of the QUEUED
state — storing the given type and payload verbatim; the stored record has
only the DDL's six columns and no retries field to initialise. -/
theorem createJobInDB_creates_queued (st : JobStore) (now : Nat) (ty pl : String) :
    ((createJobInDB st now ty pl).2).status = "pending" ∧
    ((createJobInDB st now ty pl).2).type = ty ∧
    ((createJobInDB st now ty pl).2).payload = pl ∧
    ((createJobInDB st now ty pl).2).created_at = now ∧
    ((createJobInDB st now ty pl).2).updated_at = now ∧
    "retries" ∉ jobsTableColumns :=
  ⟨rfl, rfl, rfl, rfl, rfl, by decide⟩

/-- C4: the schema created by `createJobsTable` on a fresh database consists
of exactly the six DDL columns and in particular has no "retries" column, so
the store cannot hold the per-job retry counter the claim (and the
repository README's job-status response) describe. -/
theorem createJobsTable_lacks_retries :
    createJobsTable none = some jobsTableColumns ∧
      "retries" ∉ jobsTableColumns ∧
      jobsTableColumns =
        ["id", "type", "payload", "status", "created_at", "updated_at"] := by
  decide

/-! ## C5: unknown job types never reach the store -/

/-- C5: a submission whose type has no registered handler is rejected by the
Producer's synchronous validation; the store is returned unchanged and no
job record is created. -/
theorem producerSubmit_unknown_rejected (st : JobStore) (now : Nat)
    (ty pl : String) (h : ty ∉ knownHandlerTypes) :
    producerSubmit st now ty pl = (st, none) := by
  simp [producerSubmit, h]

/-- Witness for C5: the unknown type "mineGold" is rejected on a concrete
store and creates nothing. -/
theorem producerSubmit_unknown_rejected_witness :
    "mineGold" ∉ knownHandlerTypes ∧
      producerSubmit ⟨[], 1⟩ 0 "mineGold" "p1" = (⟨[], 1⟩, none) :=
  ⟨by decide, producerSubmit_unknown_rejected ⟨[], 1⟩ 0 "mineGold" "p1" (by decide)⟩

/-! ## C8: schema creation is idempotent -/

/-- C8: `createJobsTable` is idempotent — running it against any database
state where it has already run changes nothing, and running it n+1 times
from a fresh database leaves the same schema as running it once. -/
theorem createJobsTable_idempotent :
    (∀ db, createJobsTable (createJobsTable db) = createJobsTable db) ∧
    (∀ n : Nat, createJobsTable^[n + 1] none = createJobsTable none) := by
  constructor
  · intro db
    cases db <;> rfl
  · intro n
    induction n with
    | zero => rfl
    | succ k ih =>
        rw [Function.iterate_succ_apply', ih]
        rfl

/-! ## C9: the update touches only the addressed row's status and timestamp -/

/-- C9: `updateJobStatus` is framed by its `WHERE` clause and `SET` list.
The id sequence is untouched, the table keeps its rows in place (the
row-by-row correspondence below implies equal length and order), every row
keeps its `id`, `type`, `payload` and `created_at`, and any row whose id
differs from the addressed one is entirely unchanged. -/
theorem updateJobStatus_frame (st : JobStore) (now id : Nat) (s : String) :
    (updateJobStatus st now id s).1.nextId = st.nextId ∧
    List.Forall₂
      (fun j j2 =>
        j2.id = j.id ∧ j2.type = j.type ∧ j2.payload = j.payload ∧
          j2.created_at = j.created_at ∧ (j.id ≠ id → j2 = j))
      st.jobs (updateJobStatus st now id s).1.jobs := by
  refine ⟨rfl, ?_⟩
  show List.Forall₂ _ st.jobs (st.jobs.map (updateRow now id s))
  induction st.jobs with
  | nil => exact List.Forall₂.nil
  | cons a t ih =>
      refine List.Forall₂.cons ?_ ih
      by_cases h : a.id == id
      · have ha : a.id = id := beq_iff_eq.mp h
        refine ⟨updateRow_id now id s a, ?_, ?_, ?_, ?_⟩
        · simp [updateRow, h]
        · simp [updateRow, h]
        · simp [updateRow, h]
        · intro hne
          exact absurd ha hne
      · simp [updateRow, h]

/-! ## C10: a freshly inserted job is immediately readable -/

/-- C10: in any store whose allocated ids are below the serial counter (true
of every store this interface builds), the job returned by `createJobInDB`
is found verbatim — same record, type and payload — by an immediately
following `getJobById` on its id. -/
theorem createJobInDB_then_getJobById (st : JobStore) (now : Nat)
    (ty pl : String) (hb : idsBounded st) :
    getJobById (createJobInDB st now ty pl).1 ((createJobInDB st now ty pl).2).id =
        some (createJobInDB st now ty pl).2 ∧
    ((createJobInDB st now ty pl).2).type = ty ∧
    ((createJobInDB st now ty pl).2).payload = pl := by
  refine ⟨?_, rfl, rfl⟩
  show (st.jobs ++ [(createJobInDB st now ty pl).2]).find?
      (fun j => j.id == st.nextId) = some (createJobInDB st now ty pl).2
  rw [find?_append_of_none]
  · simp [createJobInDB, List.find?]
  · intro x hx
    have hlt : x.id < st.nextId := hb x hx
    simp [Nat.ne_of_lt hlt]

/-- Witness for C10 on the empty store: the first inserted job gets id 1 and
is immediately readable with its type and payload stored verbatim. -/
theorem createJobInDB_then_getJobById_witness :
    idsBounded ⟨[], 1⟩ ∧
      getJobById (createJobInDB ⟨[], 1⟩ 3 "sendEmail" "to-a").1
          ((createJobInDB ⟨[], 1⟩ 3 "sendEmail" "to-a").2).id =
        some (createJobInDB ⟨[], 1⟩ 3 "sendEmail" "to-a").2 :=
  ⟨by decide,
   (createJobInDB_then_getJobById ⟨[], 1⟩ 3 "sendEmail" "to-a" (by decide)).1⟩
